import Mathlib

/-!
Shallow embedding of the homework-status bot (`src/homework.py`,
`src/constants.py`) and proofs about its polling, validation,
interpretation and notification behaviour.

Python values reaching the functions under study are modelled by the
inductive `PyVal`; Python exceptions by `PyErr`.  Ambient effects of the
source (`time.time()`, the HTTP transport) are passed as explicit
parameters.  Each Lean definition mirrors the control flow of the Python
function of the same name.
-/

namespace HomeworkBot

/-- A Python value as seen by the bot: strings, integers, lists,
string-keyed dicts and `None`. -/
inductive PyVal where
  | str : String → PyVal
  | int : Int → PyVal
  | list : List PyVal → PyVal
  | dict : List (String × PyVal) → PyVal
  | none : PyVal
deriving Repr

/-- Python exceptions raised by the code paths under study.
`requestException` stands for the exceptions `requests.get` raises when
the transport cannot complete the call. -/
inductive PyErr where
  | keyError : String → PyErr
  | typeError : String → PyErr
  | indexError : String → PyErr
  | unboundLocalError : String → PyErr
  | attributeError : String → PyErr
  | requestException : String → PyErr
  | exception : String → PyErr
deriving DecidableEq, Repr

/-- First-match lookup in a Python dict with string keys. -/
def dictLookup (d : List (String × PyVal)) (k : String) : Option PyVal :=
  match d with
  | [] => Option.none
  | (k2, v) :: rest => if k2 = k then Option.some v else dictLookup rest k

/-- `v[k]` for a string key `k`: dict lookup raising `KeyError` on a
missing key, `TypeError` on non-dict values (as Python subscripting
does). -/
def pySubscript (v : PyVal) (k : String) : Except PyErr PyVal :=
  match v with
  | .dict d =>
    match dictLookup d k with
    | Option.some x => .ok x
    | Option.none => .error (.keyError k)
  | .list _ => .error (.typeError "list indices must be integers or slices, not str")
  | .str _ => .error (.typeError "string indices must be integers")
  | .int _ => .error (.typeError "int object is not subscriptable")
  | .none => .error (.typeError "NoneType object is not subscriptable")

/-- `d.get(k)` on a dict: the value, or `None` when the key is absent. -/
def pyGet (d : List (String × PyVal)) (k : String) : PyVal :=
  match dictLookup d k with
  | Option.some v => v
  | Option.none => .none

/-- `str(v)` as used by f-string interpolation.  List and dict reprs are
abbreviated; no claim depends on them. -/
def pyStr : PyVal → String
  | .str s => s
  | .int n => toString n
  | .none => "None"
  | .list _ => "<list>"
  | .dict _ => "<dict>"

/-- `str(e)` for an exception `e`, as interpolated by `f'{error}'` in
`main`.  Python renders `KeyError` with its argument quoted. -/
def pyErrStr : PyErr → String
  | .keyError m => "'" ++ m ++ "'"
  | .typeError m => m
  | .indexError m => m
  | .unboundLocalError v => "local variable '" ++ v ++ "' referenced before assignment"
  | .attributeError m => m
  | .requestException m => m
  | .exception m => m

/-! ## constants.py -/

/-- `RETRY_PERIOD = 600` (`src/constants.py`). -/
def RETRY_PERIOD : Nat := 600

/-- `DAYS_30 = 40 * 86400` (`src/constants.py`). -/
def DAYS_30 : Int := 40 * 86400

/-- `HOMEWORK_VERDICTS` (`src/constants.py`): the fixed three-entry
verdict vocabulary. -/
def HOMEWORK_VERDICTS : List (String × String) :=
  [("approved", "Работа проверена: ревьюеру всё понравилось. Ура!"),
   ("reviewing", "Работа взята на проверку ревьюером."),
   ("rejected", "Работа проверена: у ревьюера есть замечания.")]

/-- Lookup in `HOMEWORK_VERDICTS` by status key. -/
def verdictLookup (s : String) : Option String :=
  HOMEWORK_VERDICTS.lookup s

/-- Python `v in HOMEWORK_VERDICTS` (and `not in`): dict membership
hashes the left operand, so an unhashable value (a list or a dict)
raises `TypeError: unhashable type` at the test itself; hashable values
(`str`, `int`, `None`) are members exactly when they equal a key, and
only a string can equal the string keys. -/
def inVerdictKeys (v : PyVal) : Except PyErr Bool :=
  match v with
  | .str s => .ok (verdictLookup s).isSome
  | .int _ => .ok false
  | .none => .ok false
  | .list _ => .error (.typeError "unhashable type: 'list'")
  | .dict _ => .error (.typeError "unhashable type: 'dict'")

/-! ## homework.py : get_api_answer -/

/-- The outcome of the `requests.get` call inside `get_api_answer`:
either a completed HTTP exchange (status code plus the JSON body already
parsed to Python data, as `.json()` returns it), or a raised transport
exception with its message. -/
inductive TransportResult where
  | ok : Nat → PyVal → TransportResult
  | fail : String → TransportResult
deriving Repr

/-- The query parameters `get_api_answer` passes to `requests.get`:
`{'from_date': int(time.time()) - DAYS_30}` (`homework.py` line 114).
`timestamp` is the function's parameter; the source never uses it, so it
does not occur on the right-hand side. -/
def requestParams (timestamp now : Int) : List (String × Int) :=
  [("from_date", now - DAYS_30)]

/-- `get_api_answer(timestamp)` (`homework.py` lines 101-127).
`now` stands for `int(time.time())` and `transport` for the outcome of
the `requests.get` call.  When the transport raises, the `except` clause
only logs, so the local `homework_statuses` stays unassigned and the
following status-code check raises `UnboundLocalError`.  A completed
call with a non-200 code raises a generic `Exception`; a 200 call
returns the parsed body. -/
def get_api_answer (timestamp now : Int) (transport : TransportResult) :
    Except PyErr PyVal :=
  match transport with
  | .fail _msg => .error (.unboundLocalError "homework_statuses")
  | .ok status body =>
    if status ≠ 200 then
      .error (.exception ("API возвращяет код отличный от 200: " ++ toString status))
    else
      .ok body

/-! ## homework.py : check_response -/

/-- `check_response(response)` (`homework.py` lines 130-162).
The `try` swallows a `KeyError` from `response['homeworks']` (it only
logs), so for a dict without the key the next reference to
`homeworks_list` raises `UnboundLocalError`; a `TypeError` from
subscripting a non-dict propagates uncaught.  A non-list value under the
key raises the code's own `TypeError`; an empty list raises `IndexError`
at `homeworks_list[0]`; otherwise the first element is returned (the
final `type(response) is not dict` check cannot fire after a successful
dict subscript but is kept faithfully). -/
def check_response (response : PyVal) : Except PyErr PyVal :=
  match pySubscript response "homeworks" with
  | .error (.keyError _) => .error (.unboundLocalError "homeworks_list")
  | .error e => .error e
  | .ok homeworks_list =>
    match homeworks_list with
    | .list l =>
      match l with
      | [] => .error (.indexError "list index out of range")
      | homework_new :: _ =>
        match response with
        | .dict _ => .ok homework_new
        | _ => .error (.typeError "Структура данных ответа от API не соответствует ожиданиям")
    | _ => .error (.typeError "Структура данных под ключом homeworks не соответствует ожиданиям")

/-! ## homework.py : parse_status -/

/-- The message raised for a status outside the verdict vocabulary. -/
def unknownStatusMsg (status : PyVal) : String :=
  "Появился новый недокументированный статус домашней работы: " ++ pyStr status

/-- `parse_status(homework)` on a dict record (`homework.py` lines
165-191): missing `homework_name` key raises `KeyError`; the membership
test `status_homework not in HOMEWORK_VERDICTS` raises `TypeError` when
the status value is unhashable; an out-of-vocabulary hashable status
(including `None` from a missing key, via `.get`) raises `KeyError`
with the unknown-status message; otherwise the formatted notification
string is returned. -/
def parse_status (homework : List (String × PyVal)) : Except PyErr String :=
  if (dictLookup homework "homework_name").isNone then
    .error (.keyError "В ответе API нет ключа homework_name")
  else
    let homework_name := pyGet homework "homework_name"
    let status_homework := pyGet homework "status"
    match inVerdictKeys status_homework with
    | .error e => .error e
    | .ok true =>
      match status_homework with
      | .str s =>
        match verdictLookup s with
        | Option.some verdict =>
          .ok ("Изменился статус проверки работы \"" ++ pyStr homework_name ++ "\". " ++ verdict)
        | Option.none => .error (.keyError (unknownStatusMsg status_homework))
      | _ => .error (.keyError (unknownStatusMsg status_homework))
    | .ok false =>
      .error (.keyError (unknownStatusMsg status_homework))

/-- `parse_status` applied to an arbitrary value, as `main` does with
whatever `check_response` returned: `'homework_name' not in homework`
checks dict keys, list elements, or substrings of a string, and raises
`TypeError` on non-containers; when the check passes on a non-dict the
subsequent `.get` attribute access raises `AttributeError`. -/
def parse_statusV (homework : PyVal) : Except PyErr String :=
  match homework with
  | .dict d => parse_status d
  | .list l =>
    if l.any (fun v => match v with | .str s => s = "homework_name" | _ => false) then
      .error (.attributeError "list object has no attribute get")
    else
      .error (.keyError "В ответе API нет ключа homework_name")
  | .str s =>
    if decide (List.IsInfix "homework_name".data s.data) then
      .error (.attributeError "str object has no attribute get")
    else
      .error (.keyError "В ответе API нет ключа homework_name")
  | _ => .error (.typeError "argument is not iterable")

/-! ## homework.py : send_message, check_tokens, main -/

/-- `send_message(bot, message)` (`homework.py` lines 86-98) attempts
one delivery through the messaging transport; a delivery failure is
caught inside and only logged, so the call never raises.  `delivered`
records whether the transport accepted the message. -/
structure SendOutcome where
  attempted : Bool
  delivered : Bool
deriving DecidableEq, Repr

/-- `send_message` with a transport that accepts the message: one
attempted, delivered send; a failing transport still yields an
attempted send and no exception escapes. -/
def send_message (transportAccepts : Bool) : SendOutcome :=
  { attempted := true, delivered := transportAccepts }

/-- The three environment credentials (`TELEGRAM_TOKEN`,
`PRACTICUM_TOKEN`, `TELEGRAM_CHAT_ID`): `Option.none` models an absent
variable, `Option.some ""` an empty one. -/
structure Tokens where
  telegram_token : Option String
  practicum_token : Option String
  telegram_chat_id : Option String
deriving DecidableEq, Repr

/-- Python truthiness of an optional string: `None` and `""` are falsy. -/
def truthyOpt : Option String → Bool
  | Option.none => false
  | Option.some s => s ≠ ""

/-- `check_tokens()` (`homework.py` lines 193-208): collects the keys
whose value is falsy and returns `False` exactly when that list is
non-empty. -/
def check_tokens (t : Tokens) : Bool :=
  let token := [("TELEGRAM_TOKEN", t.telegram_token),
                ("PRACTICUM_TOKEN", t.practicum_token),
                ("TELEGRAM_CHAT_ID", t.telegram_chat_id)].filter
    (fun kv => !truthyOpt kv.2)
  token.isEmpty

/-- One cycle's environment: the outcome of the `requests.get` call
this cycle (the current time is passed separately). -/
structure CycleInput where
  transport : TransportResult
deriving Repr

/-- The `try` body of one loop iteration (`homework.py` lines 234-237):
`get_api_answer` then `check_response` then `parse_status`, any raised
exception short-circuiting to the `except` clause. -/
def cycleResult (timestamp now : Int) (c : CycleInput) : Except PyErr String := do
  let response ← get_api_answer timestamp now c.transport
  let homework ← check_response response
  parse_statusV homework

/-- The error notification text built in the `except` clause
(`homework.py` line 243). -/
def errNotificationText (e : PyErr) : String :=
  "Сбой в работе программы: " ++ pyErrStr e

/-- The message `send_message` is called with in one loop iteration:
the status message on success (line 238), the formatted error on any
exception (line 244).  Both branches perform exactly one send and then
sleep; there is no comparison with any previously sent message. -/
def runCycle (timestamp now : Int) (c : CycleInput) : String :=
  match cycleResult timestamp now c with
  | .ok message => message
  | .error e => errNotificationText e

/-- The messages handed to `send_message`, in order, over a finite
prefix of loop iterations (`homework.py` lines 233-245). -/
def loopSends (timestamp now : Int) (cycles : List CycleInput) : List String :=
  cycles.map (runCycle timestamp now)

/-- The observable outcome of `main` (`homework.py` lines 211-245) over
a finite prefix of loop iterations.  `sysExitCalled` records the
`sys.exit()` call (made with no argument, hence exit status 0). -/
structure MainResult where
  criticalLogged : Bool
  sysExitCalled : Bool
  cyclesRun : Nat
  sends : List String
deriving DecidableEq, Repr

/-- `main()` (`homework.py` lines 211-245): when `check_tokens()` is
false a critical diagnostic is logged and `sys.exit()` terminates the
process before the bot is created and before the loop runs; otherwise
the loop runs, each iteration sending exactly one message. -/
def main (t : Tokens) (timestamp now : Int) (cycles : List CycleInput) :
    MainResult :=
  if !check_tokens t then
    { criticalLogged := true, sysExitCalled := true, cyclesRun := 0, sends := [] }
  else
    { criticalLogged := false, sysExitCalled := false,
      cyclesRun := cycles.length, sends := loopSends timestamp now cycles }

/-! ## Classifiers used in theorem statements -/

/-- Does a `get_api_answer` outcome fail with the transport's own
exception class (the spec's `ApiConnectionError`)? -/
def isConnectionFailure : Except PyErr PyVal → Bool
  | .error (.requestException _) => true
  | _ => false

/-- Is a `check_response` outcome one of the two controlled structural
`TypeError`s the function itself raises (the spec's `ShapeError`)? -/
def isControlledShapeFault : Except PyErr PyVal → Bool
  | .error (.typeError m) =>
    (m == "Структура данных под ключом homeworks не соответствует ожиданиям")
      || (m == "Структура данных ответа от API не соответствует ожиданиям")
  | _ => false

/-- Is the value a Python dict? -/
def isDictVal : PyVal → Bool
  | .dict _ => true
  | _ => false

/-! ## Helper lemmas -/

/-- `check_tokens` succeeds exactly when all three credentials are
truthy. -/
theorem check_tokens_eq_all (t : Tokens) :
    check_tokens t = (truthyOpt t.telegram_token && truthyOpt t.practicum_token
      && truthyOpt t.telegram_chat_id) := by
  cases h1 : truthyOpt t.telegram_token <;>
    cases h2 : truthyOpt t.practicum_token <;>
      cases h3 : truthyOpt t.telegram_chat_id <;>
        simp [check_tokens, h1, h2, h3]

/-! ## Claim theorems -/

/-- C4: for every work-item record with a `homework_name` field and a
`status` field whose value is in the verdict vocabulary, `parse_status`
succeeds and returns exactly
`Изменился статус проверки работы "<name>". <verdict text>`, where the
vocabulary maps `approved`, `reviewing` and `rejected` to the three
fixed Russian verdict texts. -/
theorem C4_valid_status_message (name status verdict : String)
    (d : List (String × PyVal))
    (hv : verdictLookup status = Option.some verdict)
    (hn : dictLookup d "homework_name" = Option.some (PyVal.str name))
    (hs : dictLookup d "status" = Option.some (PyVal.str status)) :
    parse_status d =
      .ok ("Изменился статус проверки работы \"" ++ name ++ "\". " ++ verdict)
    ∧ verdictLookup "approved" =
        Option.some "Работа проверена: ревьюеру всё понравилось. Ура!"
    ∧ verdictLookup "reviewing" = Option.some "Работа взята на проверку ревьюером."
    ∧ verdictLookup "rejected" =
        Option.some "Работа проверена: у ревьюера есть замечания." := by
  refine ⟨?_, rfl, rfl, rfl⟩
  simp [parse_status, pyGet, inVerdictKeys, hn, hs, hv, pyStr]

/-- C4 witness: the record `{"homework_name": "hw1", "status":
"approved"}` yields the exact approved message. -/
theorem C4_valid_status_message_witness :
    parse_status [("homework_name", PyVal.str "hw1"), ("status", PyVal.str "approved")] =
      .ok ("Изменился статус проверки работы \"" ++ "hw1" ++ "\". "
        ++ "Работа проверена: ревьюеру всё понравилось. Ура!")
    ∧ verdictLookup "approved" =
        Option.some "Работа проверена: ревьюеру всё понравилось. Ура!"
    ∧ verdictLookup "reviewing" = Option.some "Работа взята на проверку ревьюером."
    ∧ verdictLookup "rejected" =
        Option.some "Работа проверена: у ревьюера есть замечания." :=
  C4_valid_status_message "hw1" "approved"
    "Работа проверена: ревьюеру всё понравилось. Ура!"
    [("homework_name", PyVal.str "hw1"), ("status", PyVal.str "approved")]
    rfl rfl rfl

/-- C5 counterexample: at the record `{"homework_name": "hw1",
"status": []}` the status value is not in the vocabulary, yet
`parse_status` does not fail with the unknown-verdict fault: the
membership test hashes the unhashable list and raises
`TypeError: unhashable type` first. -/
theorem C5_counterexample_unhashable_status :
    parse_status [("homework_name", PyVal.str "hw1"), ("status", PyVal.list [])] =
      .error (.typeError "unhashable type: 'list'")
    ∧ parse_status [("homework_name", PyVal.str "hw1"), ("status", PyVal.list [])] ≠
      .error (.keyError (unknownStatusMsg (PyVal.list []))) :=
  ⟨rfl, fun h => PyErr.noConfusion (Except.error.inj h)⟩

/-- C5 amended: for every work-item record with a `homework_name` field
whose `status` value is hashable (a string, a number or `None`) and not
in the vocabulary {approved, reviewing, rejected}, `parse_status` fails
with the unknown-verdict fault (so no notification message is
produced); for an unhashable status value (a list or a mapping) the
membership test itself raises `TypeError: unhashable type` — still a
failure with no message, but not the unknown-verdict fault. -/
theorem C5_unknown_status_fault (d d2 d3 : List (String × PyVal)) (v : PyVal)
    (l : List PyVal) (m : List (String × PyVal))
    (hn : (dictLookup d "homework_name").isSome = true)
    (hs : dictLookup d "status" = Option.some v)
    (hv : inVerdictKeys v = Except.ok false)
    (hn2 : (dictLookup d2 "homework_name").isSome = true)
    (hs2 : dictLookup d2 "status" = Option.some (PyVal.list l))
    (hn3 : (dictLookup d3 "homework_name").isSome = true)
    (hs3 : dictLookup d3 "status" = Option.some (PyVal.dict m)) :
    parse_status d = .error (.keyError (unknownStatusMsg v))
    ∧ parse_status d2 = .error (.typeError "unhashable type: 'list'")
    ∧ parse_status d3 = .error (.typeError "unhashable type: 'dict'") := by
  obtain ⟨x, hx⟩ := Option.isSome_iff_exists.mp hn
  obtain ⟨x2, hx2⟩ := Option.isSome_iff_exists.mp hn2
  obtain ⟨x3, hx3⟩ := Option.isSome_iff_exists.mp hn3
  refine ⟨?_, ?_, ?_⟩
  · simp [parse_status, pyGet, hx, hs, hv]
  · simp [parse_status, pyGet, hx2, hs2, inVerdictKeys]
  · simp [parse_status, pyGet, hx3, hs3, inVerdictKeys]

/-- C5 witness: a `"pending"` status fails with the unknown-verdict
fault; a list-valued and a dict-valued status fail with the
unhashable-type `TypeError`. -/
theorem C5_unknown_status_fault_witness :
    parse_status [("homework_name", PyVal.str "hw1"), ("status", PyVal.str "pending")] =
      .error (.keyError (unknownStatusMsg (PyVal.str "pending")))
    ∧ parse_status [("homework_name", PyVal.str "hw2"), ("status", PyVal.list [])] =
      .error (.typeError "unhashable type: 'list'")
    ∧ parse_status [("homework_name", PyVal.str "hw3"), ("status", PyVal.dict [])] =
      .error (.typeError "unhashable type: 'dict'") :=
  C5_unknown_status_fault
    [("homework_name", PyVal.str "hw1"), ("status", PyVal.str "pending")]
    [("homework_name", PyVal.str "hw2"), ("status", PyVal.list [])]
    [("homework_name", PyVal.str "hw3"), ("status", PyVal.dict [])]
    (PyVal.str "pending") [] [] rfl rfl rfl rfl rfl rfl rfl

/-- C10: for every work-item record that has a `homework_name` field
but lacks the `status` key, `parse_status` does not fail with the
missing-field error: `.get` yields `None`, which is treated as an
out-of-vocabulary verdict, and the unknown-verdict fault is raised. -/
theorem C10_missing_status_is_unknown_verdict (d : List (String × PyVal))
    (hn : (dictLookup d "homework_name").isSome = true)
    (hs : dictLookup d "status" = Option.none) :
    parse_status d = .error (.keyError (unknownStatusMsg PyVal.none))
    ∧ parse_status d ≠ .error (.keyError "В ответе API нет ключа homework_name") := by
  obtain ⟨x, hx⟩ := Option.isSome_iff_exists.mp hn
  have h1 : parse_status d = .error (.keyError (unknownStatusMsg PyVal.none)) := by
    simp [parse_status, pyGet, hx, hs, inVerdictKeys]
  refine ⟨h1, ?_⟩
  rw [h1]
  intro hcontra
  have : unknownStatusMsg PyVal.none = "В ответе API нет ключа homework_name" := by
    injection hcontra with h2
    injection h2
  exact absurd this (by decide)

/-- C10 witness: the record `{"homework_name": "hw1"}` raises the
unknown-verdict fault mentioning `None`, not the missing-name error. -/
theorem C10_missing_status_is_unknown_verdict_witness :
    parse_status [("homework_name", PyVal.str "hw1")] =
      .error (.keyError (unknownStatusMsg PyVal.none))
    ∧ parse_status [("homework_name", PyVal.str "hw1")] ≠
      .error (.keyError "В ответе API нет ключа homework_name") :=
  C10_missing_status_is_unknown_verdict [("homework_name", PyVal.str "hw1")] rfl rfl

/-- C8: the `from_date` query parameter is derived from the current
time alone as `now - DAYS_30` with `DAYS_30 = 40 * 86400`: two calls
with different `timestamp` arguments at the same current time issue
identical requests, so the look-back window never narrows. -/
theorem C8_window_ignores_timestamp (t1 t2 now : Int) :
    requestParams t1 now = requestParams t2 now
    ∧ requestParams t1 now = [("from_date", now - 40 * 86400)]
    ∧ DAYS_30 = 40 * 86400 := by
  refine ⟨rfl, ?_, rfl⟩
  simp [requestParams, DAYS_30]

/-- C9: a completed API call with a non-200 status code makes
`get_api_answer` raise (a hard error, no payload returned), while a
200 response returns the parsed JSON body. -/
theorem C9_non200_hard_error (timestamp now : Int) (status : Nat) (body : PyVal)
    (h : status ≠ 200) :
    get_api_answer timestamp now (.ok status body) =
      .error (.exception ("API возвращяет код отличный от 200: " ++ toString status))
    ∧ get_api_answer timestamp now (.ok 200 body) = .ok body := by
  constructor
  · simp [get_api_answer, h]
  · simp [get_api_answer]

/-- C9 witness: status 500 raises the hard error naming the code, and
status 200 returns the body. -/
theorem C9_non200_hard_error_witness :
    get_api_answer 0 0 (.ok 500 (PyVal.dict [])) =
      .error (.exception ("API возвращяет код отличный от 200: " ++ toString 500))
    ∧ get_api_answer 0 0 (.ok 200 (PyVal.dict [])) = .ok (PyVal.dict []) :=
  C9_non200_hard_error 0 0 500 (PyVal.dict []) (by decide)

/-- C7: if any of the three credentials is empty or absent, `main`
logs a critical diagnostic, calls `sys.exit()` before the bot is
created, runs zero loop cycles and attempts no notification. -/
theorem C7_missing_credentials_no_cycle (t : Tokens) (timestamp now : Int)
    (cycles : List CycleInput)
    (h : truthyOpt t.telegram_token = false ∨ truthyOpt t.practicum_token = false
      ∨ truthyOpt t.telegram_chat_id = false) :
    main t timestamp now cycles =
      { criticalLogged := true, sysExitCalled := true, cyclesRun := 0, sends := [] } := by
  have hct : check_tokens t = false := by
    rw [check_tokens_eq_all]
    rcases h with h | h | h <;> simp [h]
  simp [main, hct]

/-- C7 witness: with an absent `PRACTICUM_TOKEN` the process exits at
startup with a critical log, zero cycles and no sends even when a cycle
input is available. -/
theorem C7_missing_credentials_no_cycle_witness :
    main ⟨Option.some "tg", Option.none, Option.some "chat"⟩ 0 0
        [⟨TransportResult.ok 200 (PyVal.dict [])⟩] =
      { criticalLogged := true, sysExitCalled := true, cyclesRun := 0, sends := [] } :=
  C7_missing_credentials_no_cycle ⟨Option.some "tg", Option.none, Option.some "chat"⟩
    0 0 [⟨TransportResult.ok 200 (PyVal.dict [])⟩] (Or.inr (Or.inl rfl))

/-- C3 counterexample: when the transport call cannot be completed,
`get_api_answer` does not fail with a connection-type error: the
exception is swallowed (only logged) and the status-code check then
raises `UnboundLocalError` on the unassigned `homework_statuses`. -/
theorem C3_counterexample_no_connection_error :
    get_api_answer 0 0 (.fail "connection refused") =
      .error (.unboundLocalError "homework_statuses")
    ∧ isConnectionFailure (get_api_answer 0 0 (.fail "connection refused")) = false :=
  ⟨rfl, rfl⟩

/-- C3 amended: a transport failure makes `get_api_answer` fail — but
with an `UnboundLocalError` at the status-code check, not a
connection-type error; a completed call with a non-200 code fails with
a generic `Exception`; a 200 call returns the parsed payload. -/
theorem C3_fetch_failure_modes (timestamp now : Int) (msg : String)
    (status : Nat) (body : PyVal) (h : status ≠ 200) :
    get_api_answer timestamp now (.fail msg) =
      .error (.unboundLocalError "homework_statuses")
    ∧ get_api_answer timestamp now (.ok status body) =
        .error (.exception ("API возвращяет код отличный от 200: " ++ toString status))
    ∧ get_api_answer timestamp now (.ok 200 body) = .ok body := by
  refine ⟨rfl, ?_, ?_⟩
  · simp [get_api_answer, h]
  · simp [get_api_answer]

/-- C3 witness: a refused connection yields the unbound-local failure,
status 500 the generic hard error, status 200 the body. -/
theorem C3_fetch_failure_modes_witness :
    get_api_answer 0 0 (.fail "connection refused") =
      .error (.unboundLocalError "homework_statuses")
    ∧ get_api_answer 0 0 (.ok 500 (PyVal.dict [])) =
        .error (.exception ("API возвращяет код отличный от 200: " ++ toString 500))
    ∧ get_api_answer 0 0 (.ok 200 (PyVal.dict [])) = .ok (PyVal.dict []) :=
  C3_fetch_failure_modes 0 0 "connection refused" 500 (PyVal.dict []) (by decide)

/-- C6 counterexample: a mapping without the `homeworks` key makes
`check_response` fail with `UnboundLocalError` (the `KeyError` is
swallowed), and a non-mapping input fails with the subscript's own
`TypeError`; neither failure is one of the controlled structural
shape faults the function raises itself. -/
theorem C6_counterexample_not_shape_fault :
    check_response (.dict [("other", PyVal.int 1)]) =
      .error (.unboundLocalError "homeworks_list")
    ∧ check_response (.list []) =
      .error (.typeError "list indices must be integers or slices, not str")
    ∧ isControlledShapeFault (check_response (.dict [("other", PyVal.int 1)])) = false
    ∧ isControlledShapeFault (check_response (.list [])) = false :=
  ⟨rfl, rfl, rfl, rfl⟩

/-- C6 amended: validation on a mapping lacking `homeworks` fails with
`UnboundLocalError` and on a non-mapping with the subscript's
`TypeError`; in both cases no record is returned, but the failure is
not one of the controlled structural shape faults. -/
theorem C6_shape_failure_modes (d : List (String × PyVal)) (v : PyVal)
    (hd : dictLookup d "homeworks" = Option.none)
    (hv : isDictVal v = false) :
    check_response (.dict d) = .error (.unboundLocalError "homeworks_list")
    ∧ isControlledShapeFault (check_response (.dict d)) = false
    ∧ (∃ m, check_response v = .error (.typeError m))
    ∧ isControlledShapeFault (check_response v) = false := by
  have h1 : check_response (.dict d) = .error (.unboundLocalError "homeworks_list") := by
    simp [check_response, pySubscript, hd]
  refine ⟨h1, by rw [h1]; rfl, ?_, ?_⟩
  · cases v <;> simp_all [check_response, pySubscript, isDictVal]
  · cases v <;> simp_all [check_response, pySubscript, isDictVal, isControlledShapeFault]

/-- C6 witness: the mapping `{"other": 1}` and the non-mapping `[]`
exhibit the two failure modes. -/
theorem C6_shape_failure_modes_witness :
    check_response (.dict [("other", PyVal.int 1)]) =
      .error (.unboundLocalError "homeworks_list")
    ∧ isControlledShapeFault (check_response (.dict [("other", PyVal.int 1)])) = false
    ∧ (∃ m, check_response (PyVal.list []) = .error (.typeError m))
    ∧ isControlledShapeFault (check_response (PyVal.list [])) = false :=
  C6_shape_failure_modes [("other", PyVal.int 1)] (PyVal.list []) rfl rfl

/-- C2 counterexample: a 200 response whose `homeworks` key holds an
empty list does not yield a benign empty-result outcome: validation
raises `IndexError` at `homeworks_list[0]`, the loop catches it and the
Notifier IS invoked with the formatted fault message (one send, not
zero). -/
theorem C2_counterexample_empty_list_notifies :
    check_response (.dict [("homeworks", PyVal.list [])]) =
      .error (.indexError "list index out of range")
    ∧ loopSends 0 0 [⟨TransportResult.ok 200 (PyVal.dict [("homeworks", PyVal.list [])])⟩] =
      ["Сбой в работе программы: list index out of range"]
    ∧ (loopSends 0 0
        [⟨TransportResult.ok 200 (PyVal.dict [("homeworks", PyVal.list [])])⟩]).length = 1 :=
  ⟨rfl, rfl, rfl⟩

/-- C2 amended: for every 200 response that is a mapping whose
`homeworks` key holds an empty sequence, validation fails with an
`IndexError` (not a benign outcome distinct from errors), the loop
catches it and sends exactly one fault notification through the
Notifier for that cycle, then sleeps. -/
theorem C2_empty_homeworks_faults (timestamp now : Int) (d : List (String × PyVal))
    (hd : dictLookup d "homeworks" = Option.some (PyVal.list [])) :
    check_response (.dict d) = .error (.indexError "list index out of range")
    ∧ runCycle timestamp now ⟨TransportResult.ok 200 (PyVal.dict d)⟩ =
        "Сбой в работе программы: list index out of range"
    ∧ loopSends timestamp now [⟨TransportResult.ok 200 (PyVal.dict d)⟩] =
        ["Сбой в работе программы: list index out of range"] := by
  have h1 : check_response (.dict d) = .error (.indexError "list index out of range") := by
    simp [check_response, pySubscript, hd]
  have h2 : runCycle timestamp now ⟨TransportResult.ok 200 (PyVal.dict d)⟩ =
      "Сбой в работе программы: list index out of range" := by
    simp [runCycle, cycleResult, get_api_answer, bind, Except.bind, h1,
      errNotificationText, pyErrStr]
  exact ⟨h1, h2, by simp [loopSends, h2]⟩

/-- C2 witness: the concrete response `{"homeworks": []}` produces the
`IndexError` and one fault notification. -/
theorem C2_empty_homeworks_faults_witness :
    check_response (.dict [("homeworks", PyVal.list [])]) =
      .error (.indexError "list index out of range")
    ∧ runCycle 0 0 ⟨TransportResult.ok 200 (PyVal.dict [("homeworks", PyVal.list [])])⟩ =
        "Сбой в работе программы: list index out of range"
    ∧ loopSends 0 0 [⟨TransportResult.ok 200 (PyVal.dict [("homeworks", PyVal.list [])])⟩] =
        ["Сбой в работе программы: list index out of range"] :=
  C2_empty_homeworks_faults 0 0 [("homeworks", PyVal.list [])] rfl

/-- C1 counterexample: two consecutive cycles producing the identical
fault message (HTTP 500 twice) result in two notifications being
handed to the messaging transport, not one: `main` has no dedup against
the previously sent error message. -/
theorem C1_counterexample_no_dedup :
    loopSends 0 0 [⟨TransportResult.ok 500 (PyVal.dict [])⟩,
        ⟨TransportResult.ok 500 (PyVal.dict [])⟩] =
      ["Сбой в работе программы: API возвращяет код отличный от 200: 500",
       "Сбой в работе программы: API возвращяет код отличный от 200: 500"]
    ∧ (loopSends 0 0 [⟨TransportResult.ok 500 (PyVal.dict [])⟩,
        ⟨TransportResult.ok 500 (PyVal.dict [])⟩]).length = 2 :=
  ⟨rfl, rfl⟩

/-- C1 amended: the loop applies no dedup to error messages: every
faulting cycle sends its formatted error message unconditionally, so
two consecutive cycles raising the identical fault deliver two
identical notifications. -/
theorem C1_error_messages_not_deduped (timestamp now : Int) (c : CycleInput)
    (e : PyErr) (h : cycleResult timestamp now c = .error e) :
    loopSends timestamp now [c, c] = [errNotificationText e, errNotificationText e]
    ∧ (loopSends timestamp now [c, c]).length = 2 := by
  constructor
  · simp [loopSends, runCycle, h]
  · simp [loopSends]

/-- C1 witness: the repeated HTTP-500 fault is sent twice. -/
theorem C1_error_messages_not_deduped_witness :
    loopSends 0 0 [⟨TransportResult.ok 500 (PyVal.dict [])⟩,
        ⟨TransportResult.ok 500 (PyVal.dict [])⟩] =
      [errNotificationText (.exception ("API возвращяет код отличный от 200: "
          ++ toString 500)),
       errNotificationText (.exception ("API возвращяет код отличный от 200: "
          ++ toString 500))]
    ∧ (loopSends 0 0 [⟨TransportResult.ok 500 (PyVal.dict [])⟩,
        ⟨TransportResult.ok 500 (PyVal.dict [])⟩]).length = 2 :=
  C1_error_messages_not_deduped 0 0 ⟨TransportResult.ok 500 (PyVal.dict [])⟩
    (.exception ("API возвращяет код отличный от 200: " ++ toString 500)) rfl

end HomeworkBot
